import Mathlib

set_option maxHeartbeats 1000000
set_option maxRecDepth 4000

/-!
Shallow embedding of the audit-record-to-event assembler of xnumon
(src/auevent.c): data model (audit_event_t and its sub-structures),
the token-interpretation loop of auevent_fread, the diagnostic printer
auevent_fprint, and the lifecycle function auevent_create.

External collaborators (au_read_rec, au_fetch_tok, sys_ttydevname,
ipaddrtoa, getauevnum, logutl_fwrite_timespec) are modelled as inputs:
the decoded token stream is a list of already-fetched tokens, and the
printer takes the externally-defined string renderers as parameters.
The build is the non-DEBUG_AUDITPIPE, non-RADAR43063872_FIXED
configuration of the source; the `prod` flag selects whether C assert
is compiled out (NDEBUG, production) or aborts the process.
-/

namespace Auevent

/-- Address family AF_INET as on Darwin (sys/socket.h). -/
def AF_INET : Nat := 2

/-- Address family AF_INET6 as on Darwin (sys/socket.h). -/
def AF_INET6 : Nat := 30

/-- Terminal-address type tag AU_IPv4 (bsm/audit.h). -/
def AU_IPv4 : Nat := 4

/-- Terminal-address type tag AU_IPv6 (bsm/audit.h). -/
def AU_IPv6 : Nat := 16

/-- BSM protocol family constant BSM_PF_INET (bsm/audit_domain.h). -/
def BSM_PF_INET : Nat := 2

/-- BSM protocol family constant BSM_PF_INET6 (bsm/audit_domain.h). -/
def BSM_PF_INET6 : Nat := 26

/-- Byte swap of a 16-bit value; the ntohs used in auevent.c. -/
def ntohs (p : Nat) : Nat := (p % 256) * 256 + (p / 256) % 256

/-- Terminal id of the non-extended subject and process tokens (au_tid_t). -/
structure SubjTid where
  port : Int
  addr : Nat
deriving DecidableEq, Repr

/-- Terminal id of the extended subject and process tokens (au_tid_addr_t). -/
structure SubjTidEx where
  port : Int
  ty : Nat
  addr0 : Nat
  addr1 : Nat
  addr2 : Nat
  addr3 : Nat
deriving DecidableEq, Repr

/-- Identity payload common to all subject and process token variants. -/
structure SubjData where
  auid : Nat
  euid : Nat
  egid : Nat
  ruid : Nat
  rgid : Nat
  pid : Nat
  sid : Nat
deriving DecidableEq, Repr

/-- Tagged network address stored in audit_event_t; family 0 means absent. -/
structure EvAddr where
  family : Nat
  ev_addr : Nat
  ev6_addr0 : Nat
  ev6_addr1 : Nat
  ev6_addr2 : Nat
  ev6_addr3 : Nat
deriving DecidableEq, Repr

/-- Zero address, as left by bzero in auevent_create. -/
def addr0 : EvAddr := ⟨0, 0, 0, 0, 0, 0⟩

/-- Subject or process identity block inside audit_event_t. -/
structure Ident where
  auid : Nat
  euid : Nat
  egid : Nat
  ruid : Nat
  rgid : Nat
  pid : Nat
  sid : Nat
  dev : Int
  addr : EvAddr
deriving DecidableEq, Repr

/-- Zeroed identity, as left by bzero in auevent_create. -/
def ident0 : Ident := ⟨0, 0, 0, 0, 0, 0, 0, 0, addr0⟩

/-- One syscall-argument slot of audit_event_t. -/
structure Arg where
  present : Bool
  value : Nat
deriving DecidableEq, Repr

/-- Zeroed argument slot. -/
def arg0 : Arg := ⟨false, 0⟩

/-- One file-attribute entry of audit_event_t (the rdev field is under
an excluded #if 0 in the source and is omitted here as well). -/
structure Attr where
  mode : Nat
  uid : Nat
  gid : Nat
  dev : Nat
  ino : Nat
deriving DecidableEq, Repr

/-- Zeroed attribute entry. -/
def attr0 : Attr := ⟨0, 0, 0, 0, 0⟩

/-- The audit_event_t structure.  The declaration lives in auevent.h which
is not among the provided sources; field names and the fixed capacities
follow the uses in auevent.c where possible.  Modelled from the spec:
the capacities of text (4), path (4), attr (4) and args come from the
spec's data model, auevent.h being absent; args has 256 slots because the
on-disk argument index is a u_char.  The recbuf pointer holds no decoded
state and is omitted. -/
structure AuditEvent where
  type : Nat
  mod : Nat
  tv_sec : Nat
  tv_nsec : Nat
  subject_present : Bool
  subject : Ident
  process_present : Bool
  process : Ident
  args : List Arg
  args_count : Nat
  return_present : Bool
  return_error : Nat
  return_value : Nat
  text : List (Option String)
  path : List (Option String)
  attr : List Attr
  attr_count : Nat
  execarg : Option (List String)
  execenv : Option (List String)
  exit_present : Bool
  exit_status : Nat
  exit_return : Nat
  sockinet_present : Bool
  sockinet_addr : EvAddr
  sockinet_port : Nat
  unk_tokids : List Nat
  flags_enomem : Bool
deriving DecidableEq, Repr

/-- The auevent_create lifecycle function: bzero of the whole structure. -/
def auevent_create : AuditEvent where
  type := 0
  mod := 0
  tv_sec := 0
  tv_nsec := 0
  subject_present := false
  subject := ident0
  process_present := false
  process := ident0
  args := List.replicate 256 arg0
  args_count := 0
  return_present := false
  return_error := 0
  return_value := 0
  text := List.replicate 4 none
  path := List.replicate 4 none
  attr := List.replicate 4 attr0
  attr_count := 0
  execarg := none
  execenv := none
  exit_present := false
  exit_status := 0
  exit_return := 0
  sockinet_present := false
  sockinet_addr := addr0
  sockinet_port := 0
  unk_tokids := List.replicate 256 0
  flags_enomem := false

/-- One decoded token, mirroring the tokenstr_t cases that auevent_fread
dispatches on.  The exec_args and exec_env constructors carry the
count-and-strings payload and a flag saying whether the aev_new /
aev_new_pfx allocation succeeds; aev.c is not among the provided
sources, so allocation is modelled from the spec: allocation failure
yields a NULL vector and sets the resource-exhaustion condition. -/
inductive Token where
  | header32 (e_type e_mod s ms : Nat)
  | header32_ex (e_type e_mod s ms : Nat)
  | header64 (e_type e_mod s ms : Nat)
  | header64_ex (e_type e_mod s ms : Nat)
  | trailer
  | subject32 (d : SubjData) (tid : SubjTid)
  | subject32_ex (d : SubjData) (tid : SubjTidEx)
  | subject64 (d : SubjData) (tid : SubjTid)
  | subject64_ex (d : SubjData) (tid : SubjTidEx)
  | process32 (d : SubjData) (tid : SubjTid)
  | process32_ex (d : SubjData) (tid : SubjTidEx)
  | process64 (d : SubjData) (tid : SubjTid)
  | process64_ex (d : SubjData) (tid : SubjTidEx)
  | arg32 (no : Fin 256) (val : Nat)
  | arg64 (no : Fin 256) (val : Nat)
  | return32 (status ret : Nat)
  | return64 (err val : Nat)
  | text (s : String)
  | path (s : String)
  | attr32 (mode uid gid fsid nid : Nat)
  | attr64 (mode uid gid fsid nid : Nat)
  | exec_args (xs : List String) (allocOk : Bool)
  | exec_env (env : List String) (allocOk : Bool)
  | exit (status ret : Nat)
  | sockinet32 (family : Nat) (a0 : Nat) (port : Nat)
  | sockinet128 (family : Nat) (a0 a1 a2 a3 : Nat) (port : Nat)
  | sockunix
  | unknown (id : Nat)
deriving DecidableEq, Repr

/-- One au_fetch_tok step: either a decoded token or a decode error
(au_fetch_tok returning -1 on a partial record). -/
inductive Item where
  | tok (t : Token)
  | fetchErr
deriving DecidableEq, Repr

/-- Result of au_read_rec: an I/O error, a zero-length read, or a whole
record, given here as its already-decoded token sequence. -/
inductive ReadResult where
  | readErr
  | empty
  | record (items : List Item)
deriving DecidableEq, Repr

/-- Return value of auevent_fread: 1, 0, -1, or a C assert abort
(only possible in non-production builds). -/
inductive Outcome where
  | produced
  | skipped
  | err
  | assertFail
deriving DecidableEq, Repr

/-- The AUEVENT_FLAG_ENV_DYLD / AUEVENT_FLAG_ENV_FULL capture flags. -/
structure CaptureFlags where
  env_dyld : Bool
  env_full : Bool
deriving DecidableEq, Repr

/-- Result of interpreting one token: continue with updated state and
text/path counters, jump to skip_rec, or abort on a failed assert. -/
inductive Step where
  | cont (ev : AuditEvent) (textc : Nat) (pathc : Nat)
  | skip (ev : AuditEvent)
  | aFail (ev : AuditEvent)
deriving DecidableEq, Repr

/-- Event state carried by a step, whatever the outcome. -/
def Step.ev : Step → AuditEvent
  | .cont e _ _ => e
  | .skip e => e
  | .aFail e => e

/-- The SET_DEV macro: the devnull sentinel device maps to -1. -/
def set_dev (devnull : Int) (port : Int) : Int :=
  if port = devnull then -1 else port

/-- The SET_ADDR macro: a non-zero legacy address becomes AF_INET. -/
def set_addr (a : EvAddr) (tid : SubjTid) : EvAddr :=
  if tid.addr ≠ 0 then { a with family := AF_INET, ev_addr := tid.addr } else a

/-- The SET_ADDR_EX macro: dispatch on the embedded AU_IPv4/AU_IPv6 tag. -/
def set_addr_ex (a : EvAddr) (tid : SubjTidEx) : EvAddr :=
  if tid.ty = AU_IPv4 then
    (if tid.addr0 ≠ 0 then { a with family := AF_INET, ev_addr := tid.addr0 } else a)
  else if tid.ty = AU_IPv6 then
    { a with family := AF_INET6, ev6_addr0 := tid.addr0, ev6_addr1 := tid.addr1,
             ev6_addr2 := tid.addr2, ev6_addr3 := tid.addr3 }
  else a

/-- Field assignments shared by the subject and process cases with a
non-extended terminal id. -/
def applySubj (devnull : Int) (old : Ident) (d : SubjData) (tid : SubjTid) : Ident :=
  { old with auid := d.auid, euid := d.euid, egid := d.egid, ruid := d.ruid,
             rgid := d.rgid, pid := d.pid, sid := d.sid,
             dev := set_dev devnull tid.port,
             addr := set_addr old.addr tid }

/-- Field assignments shared by the subject and process cases with an
extended terminal id. -/
def applySubjEx (devnull : Int) (old : Ident) (d : SubjData) (tid : SubjTidEx) : Ident :=
  { old with auid := d.auid, euid := d.euid, egid := d.egid, ruid := d.ruid,
             rgid := d.rgid, pid := d.pid, sid := d.sid,
             dev := set_dev devnull tid.port,
             addr := set_addr_ex old.addr tid }

/-- Linear scan of the zero-terminated type list of
auevent_type_in_typelist. -/
def typelistScan (ty : Nat) : List Nat → Bool
  | [] => false
  | x :: rest => if x = 0 then false else if ty = x then true else typelistScan ty rest

/-- The auevent_type_in_typelist function: a NULL list accepts all types. -/
def auevent_type_in_typelist (ty : Nat) : Option (List Nat) → Bool
  | none => true
  | some l => typelistScan ty l

/-- The unhandled-token bookkeeping loop of auevent_fread's default case:
scan the 256-entry unk_tokids array; stop at an entry equal to the token
id (already recorded), or write the id into the first zero entry. -/
def unkInsert (a : List Nat) (id : Nat) : List Nat :=
  match a with
  | [] => []
  | x :: rest =>
    if x = id then x :: rest
    else if x = 0 then id :: rest
    else x :: unkInsert rest id

/-- One iteration of the token switch of auevent_fread.  `prod` selects
the NDEBUG (production) build, in which C assert is compiled out; in a
non-production build a failed assert aborts (Step.aFail).  In the header
cases the source assigns ev->type before the filter check, so the type
stays set when the record is skipped. -/
def processToken (prod : Bool) (devnull : Int) (aues : Option (List Nat))
    (fl : CaptureFlags) (ev : AuditEvent) (textc pathc : Nat) : Token → Step
  | .header32 ty m s ms =>
    if aues.isSome && ! auevent_type_in_typelist ty aues then
      .skip { ev with type := ty }
    else
      .cont { ev with type := ty, mod := m, tv_sec := s, tv_nsec := ms * 1000000 } textc pathc
  | .header32_ex ty m s ms =>
    if aues.isSome && ! auevent_type_in_typelist ty aues then
      .skip { ev with type := ty }
    else
      .cont { ev with type := ty, mod := m, tv_sec := s, tv_nsec := ms * 1000000 } textc pathc
  | .header64 ty m s ms =>
    if aues.isSome && ! auevent_type_in_typelist ty aues then
      .skip { ev with type := ty }
    else
      .cont { ev with type := ty, mod := m, tv_sec := s, tv_nsec := ms } textc pathc
  | .header64_ex ty m s ms =>
    if aues.isSome && ! auevent_type_in_typelist ty aues then
      .skip { ev with type := ty }
    else
      .cont { ev with type := ty, mod := m, tv_sec := s, tv_nsec := ms } textc pathc
  | .trailer => .cont ev textc pathc
  | .subject32 d tid =>
    if !prod && ev.subject_present then .aFail ev
    else .cont { ev with subject_present := true,
                         subject := applySubj devnull ev.subject d tid } textc pathc
  | .subject32_ex d tid =>
    if !prod && ev.subject_present then .aFail ev
    else .cont { ev with subject_present := true,
                         subject := applySubjEx devnull ev.subject d tid } textc pathc
  | .subject64 d tid =>
    if !prod && ev.subject_present then .aFail ev
    else .cont { ev with subject_present := true,
                         subject := applySubj devnull ev.subject d tid } textc pathc
  | .subject64_ex d tid =>
    if !prod && ev.subject_present then .aFail ev
    else .cont { ev with subject_present := true,
                         subject := applySubjEx devnull ev.subject d tid } textc pathc
  | .process32 d tid =>
    if !prod && ev.process_present then .aFail ev
    else .cont { ev with process_present := true,
                         process := applySubj devnull ev.process d tid } textc pathc
  | .process32_ex d tid =>
    if !prod && ev.process_present then .aFail ev
    else .cont { ev with process_present := true,
                         process := applySubjEx devnull ev.process d tid } textc pathc
  | .process64 d tid =>
    if !prod && ev.process_present then .aFail ev
    else .cont { ev with process_present := true,
                         process := applySubj devnull ev.process d tid } textc pathc
  | .process64_ex d tid =>
    if !prod && ev.process_present then .aFail ev
    else .cont { ev with process_present := true,
                         process := applySubjEx devnull ev.process d tid } textc pathc
  | .arg32 no val =>
    if !prod && (ev.args.getD no.val arg0).present then .aFail ev
    else .cont { ev with args := ev.args.set no.val ⟨true, val⟩,
                         args_count := Nat.max ev.args_count (no.val + 1) } textc pathc
  | .arg64 no val =>
    if !prod && (ev.args.getD no.val arg0).present then .aFail ev
    else .cont { ev with args := ev.args.set no.val ⟨true, val⟩,
                         args_count := Nat.max ev.args_count (no.val + 1) } textc pathc
  | .return32 status ret =>
    if !prod && ev.return_present then .aFail ev
    else .cont { ev with return_present := true, return_error := status,
                         return_value := ret } textc pathc
  | .return64 err val =>
    if !prod && ev.return_present then .aFail ev
    else .cont { ev with return_present := true, return_error := err,
                         return_value := val } textc pathc
  | .text s =>
    if ! decide (textc < ev.text.length) then .skip ev
    else .cont { ev with text := ev.text.set textc (some s) } (textc + 1) pathc
  | .path s =>
    if ! decide (pathc < ev.path.length) then .skip ev
    else .cont { ev with path := ev.path.set pathc (some s) } textc (pathc + 1)
  | .attr32 mode uid gid fsid nid =>
    if ! decide (ev.attr_count < ev.attr.length) then .skip ev
    else .cont { ev with attr := ev.attr.set ev.attr_count ⟨mode, uid, gid, fsid, nid⟩,
                         attr_count := ev.attr_count + 1 } textc pathc
  | .attr64 mode uid gid fsid nid =>
    if ! decide (ev.attr_count < ev.attr.length) then .skip ev
    else .cont { ev with attr := ev.attr.set ev.attr_count ⟨mode, uid, gid, fsid, nid⟩,
                         attr_count := ev.attr_count + 1 } textc pathc
  | .exec_args xs allocOk =>
    if !prod && ev.execarg.isSome then .aFail ev
    else .cont { ev with execarg := if allocOk then some xs else none,
                         flags_enomem := if allocOk then ev.flags_enomem else true }
               textc pathc
  | .exec_env env allocOk =>
    if !(fl.env_dyld || fl.env_full) then .cont ev textc pathc
    else if !prod && ev.execenv.isSome then .aFail ev
    else
      let newenv : Option (List String) :=
        if fl.env_dyld then
          (if allocOk then some (env.filter (fun s => "DYLD_".isPrefixOf s)) else none)
        else
          (if allocOk then some env else none)
      .cont { ev with execenv := newenv,
                      flags_enomem := if newenv.isNone && !allocOk then true
                                      else ev.flags_enomem } textc pathc
  | .exit status ret =>
    if !prod && ev.exit_present then .aFail ev
    else .cont { ev with exit_present := true, exit_status := status,
                         exit_return := ret } textc pathc
  | .sockinet32 family a0v port =>
    if family ≠ BSM_PF_INET then .cont ev textc pathc
    else .cont { ev with sockinet_addr := { ev.sockinet_addr with
                                            family := AF_INET, ev_addr := a0v },
                         sockinet_port := ntohs port } textc pathc
  | .sockinet128 family a0v a1v a2v a3v port =>
    if family ≠ BSM_PF_INET6 then .cont ev textc pathc
    else .cont { ev with sockinet_addr := { ev.sockinet_addr with
                                            family := AF_INET6,
                                            ev6_addr0 := a0v, ev6_addr1 := a1v,
                                            ev6_addr2 := a2v, ev6_addr3 := a3v },
                         sockinet_port := port } textc pathc
  | .sockunix => .cont ev textc pathc
  | .unknown id => .cont { ev with unk_tokids := unkInsert ev.unk_tokids id } textc pathc

/-- The token loop of auevent_fread, starting after a successful
au_read_rec.  A decode error skips the record; reaching the end of the
record returns -1 if AEFLAG_ENOMEM was set and 1 otherwise. -/
def runTokens (prod : Bool) (devnull : Int) (aues : Option (List Nat))
    (fl : CaptureFlags) (ev : AuditEvent) (textc pathc : Nat) :
    List Item → Outcome × AuditEvent
  | [] => ((if ev.flags_enomem then .err else .produced), ev)
  | .fetchErr :: _ => (.skipped, ev)
  | .tok t :: rest =>
    match processToken prod devnull aues fl ev textc pathc t with
    | .cont ev' tc pc => runTokens prod devnull aues fl ev' tc pc rest
    | .skip ev' => (.skipped, ev')
    | .aFail ev' => (.assertFail, ev')

/-- The auevent_fread entry point over an already-read record. -/
def auevent_fread (prod : Bool) (devnull : Int) (aues : Option (List Nat))
    (fl : CaptureFlags) (ev : AuditEvent) : ReadResult → Outcome × AuditEvent
  | .readErr => (.err, ev)
  | .empty => (.skipped, ev)
  | .record items => runTokens prod devnull aues fl ev 0 0 items

/-- External string renderers that auevent_fprint calls: sys_ttydevname,
ipaddrtoa, getauevnum (its ae_name field) and logutl_fwrite_timespec,
all defined outside auevent.c. -/
structure PrintEnv where
  ttydevname : Int → String
  ipaddrtoa : EvAddr → String → String
  aename : Nat → String
  timespec : Nat → Nat → String

/-- Octal rendering backing the %o conversion. -/
def natToOct (n : Nat) : String := (Nat.toDigits 8 n).asString

/-- Zero-padded two-digit hexadecimal rendering backing %02x. -/
def hex2 (n : Nat) : String :=
  let s := (Nat.toDigits 16 n).asString
  if s.length < 2 then "0" ++ s else s

/-- The auevent_fprint printer, one list entry per fprintf call, in the
order of the source.  The process block reproduces the source verbatim:
its tid rendering tests ev->subject.dev against -1 (auevent.c line 552)
while naming the device from ev->process.dev. -/
def auevent_fprint (env : PrintEnv) (ev : AuditEvent) : List String :=
  [env.timespec ev.tv_sec ev.tv_nsec,
   " " ++ env.aename ev.type ++ " [" ++ toString ev.type ++ ":" ++ toString ev.mod ++ "]"]
  ++ (if ev.subject_present then
        [" subject_pid=" ++ toString ev.subject.pid
         ++ " subject_sid=" ++ toString ev.subject.sid
         ++ " subject_tid=/dev/"
         ++ (if ev.subject.dev = -1 then "-" else env.ttydevname ev.subject.dev)
         ++ "[" ++ env.ipaddrtoa ev.subject.addr "-" ++ "]"
         ++ " subject_auid=" ++ toString ev.subject.auid
         ++ " subject_euid=" ++ toString ev.subject.euid
         ++ " subject_egid=" ++ toString ev.subject.egid
         ++ " subject_ruid=" ++ toString ev.subject.ruid
         ++ " subject_rgid=" ++ toString ev.subject.rgid]
      else [])
  ++ (if ev.process_present then
        [" process_pid=" ++ toString ev.process.pid
         ++ " process_sid=" ++ toString ev.process.sid
         ++ " process_tid=/dev/"
         ++ (if ev.subject.dev = -1 then "-" else env.ttydevname ev.process.dev)
         ++ "[" ++ env.ipaddrtoa ev.process.addr "-" ++ "]"
         ++ " process_auid=" ++ toString ev.process.auid
         ++ " process_euid=" ++ toString ev.process.euid
         ++ " process_egid=" ++ toString ev.process.egid
         ++ " process_ruid=" ++ toString ev.process.ruid
         ++ " process_rgid=" ++ toString ev.process.rgid]
      else [])
  ++ ((List.range ev.args_count).filterMap (fun i =>
        if (ev.args.getD i arg0).present then
          some (" args[" ++ toString i ++ "]=" ++ toString (ev.args.getD i arg0).value)
        else none))
  ++ (if ev.return_present then
        [" return_error=" ++ toString ev.return_error
         ++ " return_value=" ++ toString ev.return_value]
      else [])
  ++ (if ev.exit_present then
        [" exit_status=" ++ toString ev.exit_status
         ++ " exit_return=" ++ toString ev.exit_return]
      else [])
  ++ (ev.text.enum.filterMap (fun p =>
        match p.2 with
        | some s => some (" text[" ++ toString p.1 ++ "]=" ++ s)
        | none => none))
  ++ (ev.path.enum.filterMap (fun p =>
        match p.2 with
        | some s => some (" path[" ++ toString p.1 ++ "]=\x27" ++ s ++ "\x27")
        | none => none))
  ++ ((List.range ev.attr_count).map (fun i =>
        " attr[" ++ toString i ++ "] mode=" ++ natToOct (ev.attr.getD i attr0).mode
        ++ " uid=" ++ toString (ev.attr.getD i attr0).uid
        ++ " gid=" ++ toString (ev.attr.getD i attr0).gid))
  ++ (match ev.execarg with
      | none => []
      | some l => " execarg" :: l.enum.map (fun p =>
          (if p.1 = 0 then "=" else " ") ++ "\x27" ++ p.2 ++ "\x27"))
  ++ (match ev.execenv with
      | none => []
      | some l => " execenv" :: l.enum.map (fun p =>
          (if p.1 = 0 then "=" else " ") ++ "\x27" ++ p.2 ++ "\x27"))
  ++ (if ev.sockinet_present then
        [" sockinet=" ++ env.ipaddrtoa ev.sockinet_addr "-" ++ ":"
         ++ toString ev.sockinet_port]
      else [])
  ++ (if ev.unk_tokids.getD 0 0 ≠ 0 then
        " unk_tokids" :: (ev.unk_tokids.takeWhile (fun x => x != 0)).enum.map (fun p =>
          (if p.1 = 0 then "=" else ",") ++ "0x" ++ hex2 p.2)
      else [])
  ++ ["\n"]

/-- Event type carried by a header token, if any. -/
def headerType : Token → Option Nat
  | .header32 ty _ _ _ => some ty
  | .header32_ex ty _ _ _ => some ty
  | .header64 ty _ _ _ => some ty
  | .header64_ex ty _ _ _ => some ty
  | _ => none

/-- Type, modifier and stored timestamp of a header token, if any; the
32-bit variants store milliseconds scaled to nanoseconds, the 64-bit
variants store the nanosecond field directly. -/
def headerFields : Token → Option (Nat × Nat × Nat × Nat)
  | .header32 ty m s ms => some (ty, m, s, ms * 1000000)
  | .header32_ex ty m s ms => some (ty, m, s, ms * 1000000)
  | .header64 ty m s ms => some (ty, m, s, ms)
  | .header64_ex ty m s ms => some (ty, m, s, ms)
  | _ => none

/-- Number of text tokens among the fetched items of a record. -/
def countText : List Item → Nat
  | [] => 0
  | .tok (.text _) :: r => countText r + 1
  | _ :: r => countText r

/-- Number of path tokens among the fetched items of a record. -/
def countPath : List Item → Nat
  | [] => 0
  | .tok (.path _) :: r => countPath r + 1
  | _ :: r => countPath r

/-- Number of attribute tokens among the fetched items of a record. -/
def countAttr : List Item → Nat
  | [] => 0
  | .tok (.attr32 _ _ _ _ _) :: r => countAttr r + 1
  | .tok (.attr64 _ _ _ _ _) :: r => countAttr r + 1
  | _ :: r => countAttr r

/-- One plus the highest populated argument index among slots numbered
from i, or 0 when no slot is populated. -/
def argsSupAux (i : Nat) : List Arg → Nat
  | [] => 0
  | a :: rest => Nat.max (if a.present then i + 1 else 0) (argsSupAux (i + 1) rest)

/-- One plus the highest populated argument index, or 0 when no argument
slot is populated. -/
def argsSup (l : List Arg) : Nat := argsSupAux 0 l

/-- Whether a step aborted on a failed assert. -/
def Step.isFail : Step → Bool
  | .aFail _ => true
  | _ => false

/-- Whether a token is a text token. -/
def Token.isText : Token → Bool
  | .text _ => true
  | _ => false

/-- Whether a token is a path token. -/
def Token.isPath : Token → Bool
  | .path _ => true
  | _ => false

/-- Whether a token is an attribute token. -/
def Token.isAttr : Token → Bool
  | .attr32 _ _ _ _ _ => true
  | .attr64 _ _ _ _ _ => true
  | _ => false

/-- A token during whose interpretation an allocation for a
variable-length payload fails under the given capture flags: a failing
exec-argv allocation, or a failing exec-envp allocation when envp
capture is enabled (with capture disabled the envp token is ignored and
no allocation is attempted). -/
def AllocFails (fl : CaptureFlags) : Token → Prop
  | .exec_args _ ok => ok = false
  | .exec_env _ ok => ok = false ∧ (fl.env_dyld || fl.env_full) = true
  | _ => False

theorem countText_cons (t : Token) (rest : List Item) :
    countText (.tok t :: rest) = countText rest + (if t.isText then 1 else 0) := by
  cases t <;> simp [countText, Token.isText]

theorem countPath_cons (t : Token) (rest : List Item) :
    countPath (.tok t :: rest) = countPath rest + (if t.isPath then 1 else 0) := by
  cases t <;> simp [countPath, Token.isPath]

theorem countAttr_cons (t : Token) (rest : List Item) :
    countAttr (.tok t :: rest) = countAttr rest + (if t.isAttr then 1 else 0) := by
  cases t <;> simp [countAttr, Token.isAttr]

/-- In the production build (assert compiled out) no token can abort. -/
theorem processToken_prod_no_fail (devnull : Int) (aues : Option (List Nat))
    (fl : CaptureFlags) (ev : AuditEvent) (textc pathc : Nat) (t : Token) :
    (processToken true devnull aues fl ev textc pathc t).isFail = false := by
  cases t <;> simp only [processToken] <;> (repeat' split) <;> simp_all [Step.isFail]

/-- AEFLAG_ENOMEM is sticky: no token interpretation ever clears it. -/
theorem processToken_enomem (prod : Bool) (devnull : Int) (aues : Option (List Nat))
    (fl : CaptureFlags) (ev : AuditEvent) (textc pathc : Nat) (t : Token)
    (h : ev.flags_enomem = true) :
    ((processToken prod devnull aues fl ev textc pathc t).ev).flags_enomem = true := by
  cases t <;> simp only [processToken] <;> (repeat' split) <;> simp_all [Step.ev]

/-- Effect of one continuing step on the bounded text/path/attribute
storage: capacities are unchanged, each counter advances exactly on its
own token kind, and a counter only advances while under capacity. -/
theorem processToken_cont_counters (prod : Bool) (devnull : Int)
    (aues : Option (List Nat)) (fl : CaptureFlags) (ev : AuditEvent)
    (textc pathc : Nat) (t : Token) (ev' : AuditEvent) (tc' pc' : Nat)
    (h : processToken prod devnull aues fl ev textc pathc t = .cont ev' tc' pc') :
    ev'.text.length = ev.text.length ∧ ev'.path.length = ev.path.length ∧
    ev'.attr.length = ev.attr.length ∧
    tc' = textc + (if t.isText then 1 else 0) ∧
    pc' = pathc + (if t.isPath then 1 else 0) ∧
    ev'.attr_count = ev.attr_count + (if t.isAttr then 1 else 0) ∧
    (t.isText = true → textc < ev.text.length) ∧
    (t.isPath = true → pathc < ev.path.length) ∧
    (t.isAttr = true → ev.attr_count < ev.attr.length) := by
  cases t <;> simp only [processToken] at h <;> (repeat' split at h) <;>
    simp_all [Token.isText, Token.isPath, Token.isAttr] <;>
    (try obtain ⟨h1, h2, h3⟩ := h) <;> subst_vars <;>
    simp_all [List.length_set]

/-- In the production build, a record holding more text tokens than
free text slots is always skipped. -/
theorem runTokens_text_overflow (devnull : Int) (aues : Option (List Nat))
    (fl : CaptureFlags) :
    ∀ (items : List Item) (ev : AuditEvent) (textc pathc : Nat),
      textc ≤ ev.text.length →
      ev.text.length < textc + countText items →
      (runTokens true devnull aues fl ev textc pathc items).1 = .skipped := by
  intro items
  induction items with
  | nil =>
    intro ev tc pc h1 h2
    exfalso; simp [countText] at h2; omega
  | cons it rest ih =>
    intro ev tc pc h1 h2
    cases it with
    | fetchErr => simp [runTokens]
    | tok t =>
      rw [countText_cons] at h2
      simp only [runTokens]
      cases hstep : processToken true devnull aues fl ev tc pc t with
      | skip ev' => simp
      | aFail ev' =>
        have hnf := processToken_prod_no_fail devnull aues fl ev tc pc t
        rw [hstep] at hnf
        simp [Step.isFail] at hnf
      | cont ev' tc' pc' =>
        obtain ⟨hT, _, _, htc, _, _, himp, _, _⟩ :=
          processToken_cont_counters true devnull aues fl ev tc pc t ev' tc' pc' hstep
        cases ht : t.isText with
        | true =>
          have hlt := himp ht
          simp [ht] at htc h2
          exact ih ev' tc' pc' (by omega) (by omega)
        | false =>
          simp [ht] at htc h2
          exact ih ev' tc' pc' (by omega) (by omega)


/-- In the production build, a record holding more path tokens than
free path slots is always skipped. -/
theorem runTokens_path_overflow (devnull : Int) (aues : Option (List Nat))
    (fl : CaptureFlags) :
    ∀ (items : List Item) (ev : AuditEvent) (textc pathc : Nat),
      pathc ≤ ev.path.length →
      ev.path.length < pathc + countPath items →
      (runTokens true devnull aues fl ev textc pathc items).1 = .skipped := by
  intro items
  induction items with
  | nil =>
    intro ev tc pc h1 h2
    exfalso; simp [countPath] at h2; omega
  | cons it rest ih =>
    intro ev tc pc h1 h2
    cases it with
    | fetchErr => simp [runTokens]
    | tok t =>
      rw [countPath_cons] at h2
      simp only [runTokens]
      cases hstep : processToken true devnull aues fl ev tc pc t with
      | skip ev' => simp
      | aFail ev' =>
        have hnf := processToken_prod_no_fail devnull aues fl ev tc pc t
        rw [hstep] at hnf
        simp [Step.isFail] at hnf
      | cont ev' tc' pc' =>
        obtain ⟨_, hP, _, _, hpc, _, _, himp, _⟩ :=
          processToken_cont_counters true devnull aues fl ev tc pc t ev' tc' pc' hstep
        cases ht : t.isPath with
        | true =>
          have hlt := himp ht
          simp [ht] at hpc h2
          exact ih ev' tc' pc' (by omega) (by omega)
        | false =>
          simp [ht] at hpc h2
          exact ih ev' tc' pc' (by omega) (by omega)

/-- In the production build, a record holding more attribute tokens than
free attr slots is always skipped. -/
theorem runTokens_attr_overflow (devnull : Int) (aues : Option (List Nat))
    (fl : CaptureFlags) :
    ∀ (items : List Item) (ev : AuditEvent) (textc pathc : Nat),
      ev.attr_count ≤ ev.attr.length →
      ev.attr.length < ev.attr_count + countAttr items →
      (runTokens true devnull aues fl ev textc pathc items).1 = .skipped := by
  intro items
  induction items with
  | nil =>
    intro ev tc pc h1 h2
    exfalso; simp [countAttr] at h2; omega
  | cons it rest ih =>
    intro ev tc pc h1 h2
    cases it with
    | fetchErr => simp [runTokens]
    | tok t =>
      rw [countAttr_cons] at h2
      simp only [runTokens]
      cases hstep : processToken true devnull aues fl ev tc pc t with
      | skip ev' => simp
      | aFail ev' =>
        have hnf := processToken_prod_no_fail devnull aues fl ev tc pc t
        rw [hstep] at hnf
        simp [Step.isFail] at hnf
      | cont ev' tc' pc' =>
        obtain ⟨_, _, hA, _, _, hac, _, _, himp⟩ :=
          processToken_cont_counters true devnull aues fl ev tc pc t ev' tc' pc' hstep
        cases ht : t.isAttr with
        | true =>
          have hlt := himp ht
          simp [ht] at hac h2
          exact ih ev' tc' pc' (by omega) (by omega)
        | false =>
          simp [ht] at hac h2
          exact ih ev' tc' pc' (by omega) (by omega)

/-- Once AEFLAG_ENOMEM is set, the remaining loop keeps it set and the
record can no longer be returned as produced (return value 1). -/
theorem runTokens_enomem (prod : Bool) (devnull : Int) (aues : Option (List Nat))
    (fl : CaptureFlags) :
    ∀ (items : List Item) (ev : AuditEvent) (textc pathc : Nat),
      ev.flags_enomem = true →
      (runTokens prod devnull aues fl ev textc pathc items).2.flags_enomem = true ∧
      (runTokens prod devnull aues fl ev textc pathc items).1 ≠ .produced := by
  intro items
  induction items with
  | nil => intro ev tc pc h; simp [runTokens, h]
  | cons it rest ih =>
    intro ev tc pc h
    cases it with
    | fetchErr => simp [runTokens, h]
    | tok t =>
      have hstick := processToken_enomem prod devnull aues fl ev tc pc t h
      simp only [runTokens]
      cases hstep : processToken prod devnull aues fl ev tc pc t with
      | cont ev' tc' pc' =>
        rw [hstep] at hstick
        exact ih ev' tc' pc' hstick
      | skip ev' =>
        rw [hstep] at hstick
        simpa [Step.ev] using hstick
      | aFail ev' =>
        rw [hstep] at hstick
        simpa [Step.ev] using hstick

/-- Interpreting a token whose payload allocation fails sets
AEFLAG_ENOMEM on the event, in every build in which the interpretation
does not abort on a failed assert. -/
theorem processToken_allocFail_sets_enomem (prod : Bool) (devnull : Int)
    (aues : Option (List Nat)) (fl : CaptureFlags) (ev : AuditEvent)
    (textc pathc : Nat) (tf : Token) (htf : AllocFails fl tf)
    (hnf : (processToken prod devnull aues fl ev textc pathc tf).isFail = false) :
    ((processToken prod devnull aues fl ev textc pathc tf).ev).flags_enomem = true := by
  cases tf <;>
    first
      | exact htf.elim
      | (obtain rfl := htf
         by_cases hc : (!prod && ev.execarg.isSome) = true
         · simp [processToken, hc, Step.isFail] at hnf
         · simp [processToken, hc, Step.ev])
      | (obtain ⟨rfl, henv⟩ := htf
         by_cases hc : (!prod && ev.execenv.isSome) = true
         · simp [processToken, henv, hc, Step.isFail] at hnf
         · simp [processToken, henv, hc, Step.ev])

/-- A record containing, at any position, a token whose payload
allocation fails is never returned as produced, whatever precedes or
follows it and whatever the filter and the build. -/
theorem runTokens_allocFail_not_produced (prod : Bool) (devnull : Int)
    (aues : Option (List Nat)) (fl : CaptureFlags) (tf : Token)
    (rest : List Item) (htf : AllocFails fl tf) :
    ∀ (pre : List Item) (ev : AuditEvent) (textc pathc : Nat),
      (runTokens prod devnull aues fl ev textc pathc
        (pre ++ .tok tf :: rest)).1 ≠ .produced := by
  intro pre
  induction pre with
  | nil =>
    intro ev tc pc
    simp only [List.nil_append, runTokens]
    cases hstep : processToken prod devnull aues fl ev tc pc tf with
    | cont ev' tc' pc' =>
      have hnf : (processToken prod devnull aues fl ev tc pc tf).isFail = false := by
        rw [hstep]; rfl
      have hflag := processToken_allocFail_sets_enomem prod devnull aues fl ev tc pc tf htf hnf
      rw [hstep] at hflag
      exact (runTokens_enomem prod devnull aues fl rest ev' tc' pc' hflag).2
    | skip ev' => simp
    | aFail ev' => simp
  | cons it pre' ih =>
    intro ev tc pc
    cases it with
    | fetchErr => simp [runTokens]
    | tok t =>
      simp only [List.cons_append, runTokens]
      cases hstep : processToken prod devnull aues fl ev tc pc t with
      | cont ev' tc' pc' => exact ih ev' tc' pc'
      | skip ev' => simp
      | aFail ev' => simp

/-- Setting slot j to a populated argument raises the supremum to
exactly the maximum of the old supremum and the slot's one-based index. -/
theorem argsSupAux_set :
    ∀ (l : List Arg) (i j : Nat) (v : Nat), j < l.length →
      argsSupAux i (l.set j ⟨true, v⟩) = Nat.max (argsSupAux i l) (i + j + 1) := by
  intro l
  induction l with
  | nil => intro i j v h; simp at h
  | cons a rest ih =>
    intro i j v h
    cases j with
    | zero =>
      cases hp : a.present <;>
        simp [argsSupAux, List.set, hp, Nat.max_def] <;> split_ifs <;> omega
    | succ j' =>
      have hj : j' < rest.length := by simpa using h
      cases hp : a.present <;>
        simp [argsSupAux, List.set, hp, ih (i + 1) j' v hj, Nat.max_def] <;>
        split_ifs <;> omega

/-- Reading back a slot just set, for lists of arguments. -/
theorem argsGetD_set_self :
    ∀ (l : List Arg) (i : Nat), i < l.length → ∀ a, (l.set i a).getD i arg0 = a := by
  intro l
  induction l with
  | nil => intro i h; simp at h
  | cons x r ih =>
    intro i h a
    cases i with
    | zero => simp [List.set]
    | succ n => simpa [List.set] using ih n (by simpa using h) a

/-- A run of zeroed argument slots has supremum 0. -/
theorem argsSupAux_replicate (n : Nat) : ∀ i, argsSupAux i (List.replicate n arg0) = 0 := by
  induction n with
  | zero => intro i; simp [argsSupAux]
  | succ m ih =>
    intro i
    show argsSupAux i (arg0 :: List.replicate m arg0) = 0
    simp only [argsSupAux, ih]
    rfl

/-- The args_count bookkeeping invariant: 256 slots, and args_count is
one plus the highest populated index (0 when none is populated). -/
def ArgsInv (ev : AuditEvent) : Prop :=
  ev.args.length = 256 ∧ ev.args_count = argsSup ev.args

/-- Every token interpretation preserves the args_count invariant,
whatever the step outcome. -/
theorem processToken_argsInv (prod : Bool) (devnull : Int)
    (aues : Option (List Nat)) (fl : CaptureFlags) (ev : AuditEvent)
    (textc pathc : Nat) (t : Token) (h : ArgsInv ev) :
    ArgsInv ((processToken prod devnull aues fl ev textc pathc t).ev) := by
  cases t <;>
    first
      | (simp only [processToken]; (repeat' split) <;> exact h)
      | (simp only [processToken]
         split
         · exact h
         · obtain ⟨h1, h2⟩ := h
           refine ⟨by simp [Step.ev, List.length_set, h1], ?_⟩
           simp only [Step.ev]
           rw [argsSup, argsSupAux_set _ 0 _ _ (by rw [h1]; exact Fin.isLt _)]
           rw [← argsSup, ← h2]
           simp)

/-- The args_count invariant holds of the loop's final event state. -/
theorem runTokens_argsInv (prod : Bool) (devnull : Int)
    (aues : Option (List Nat)) (fl : CaptureFlags) :
    ∀ (items : List Item) (ev : AuditEvent) (textc pathc : Nat),
      ArgsInv ev → ArgsInv (runTokens prod devnull aues fl ev textc pathc items).2 := by
  intro items
  induction items with
  | nil => intro ev tc pc h; simpa [runTokens] using h
  | cons it rest ih =>
    intro ev tc pc h
    cases it with
    | fetchErr => simpa [runTokens] using h
    | tok t =>
      have hpres := processToken_argsInv prod devnull aues fl ev tc pc t h
      simp only [runTokens]
      cases hstep : processToken prod devnull aues fl ev tc pc t with
      | cont ev' tc' pc' =>
        rw [hstep] at hpres
        exact ih ev' tc' pc' hpres
      | skip ev' =>
        rw [hstep] at hpres
        simpa [Step.ev] using hpres
      | aFail ev' =>
        rw [hstep] at hpres
        simpa [Step.ev] using hpres

/-- The freshly created event satisfies the args_count invariant. -/
theorem argsInv_create : ArgsInv auevent_create := by
  constructor
  · simp [auevent_create]
  · rw [argsSup]
    show 0 = argsSupAux 0 (List.replicate 256 arg0)
    rw [argsSupAux_replicate]

/-- A header token whose type passes the filter continues, overwriting
type, modifier and timestamp. -/
theorem processToken_header_cont (prod : Bool) (devnull : Int)
    (aues : Option (List Nat)) (fl : CaptureFlags) (ev : AuditEvent)
    (textc pathc : Nat) (t : Token) (f : Nat × Nat × Nat × Nat)
    (hf : headerFields t = some f)
    (hpass : auevent_type_in_typelist f.1 aues = true) :
    processToken prod devnull aues fl ev textc pathc t
      = .cont { ev with type := f.1, mod := f.2.1, tv_sec := f.2.2.1,
                        tv_nsec := f.2.2.2 } textc pathc := by
  cases t <;> simp only [headerFields] at hf <;> (try cases hf) <;>
    simp_all [processToken]

/-- A run over header tokens that all pass the filter ends the record
normally, the last header's fields winning. -/
theorem runTokens_headers (prod : Bool) (devnull : Int)
    (aues : Option (List Nat)) (fl : CaptureFlags) :
    ∀ (hs : List Token) (ev : AuditEvent) (textc pathc : Nat)
      (f : Nat × Nat × Nat × Nat),
      (∀ t ∈ hs, ∃ g, headerFields t = some g ∧
         auevent_type_in_typelist g.1 aues = true) →
      (hs.filterMap headerFields).getLast? = some f →
      runTokens prod devnull aues fl ev textc pathc (hs.map Item.tok)
        = ((if ev.flags_enomem then Outcome.err else Outcome.produced),
           { ev with type := f.1, mod := f.2.1, tv_sec := f.2.2.1,
                     tv_nsec := f.2.2.2 }) := by
  intro hs
  induction hs with
  | nil => intro ev tc pc f hall hlast; simp at hlast
  | cons t rest ih =>
    intro ev tc pc f hall hlast
    obtain ⟨g, hg, hpass⟩ := hall t (by simp)
    have hstep := processToken_header_cont prod devnull aues fl ev tc pc t g hg hpass
    simp only [List.map_cons, runTokens, hstep]
    cases rest with
    | nil =>
      have hf : f = g := by
        rw [List.filterMap_cons_some hg] at hlast
        simpa using hlast.symm
      subst hf
      simp [runTokens]
    | cons t2 r2 =>
      obtain ⟨g2, hg2, _⟩ := hall t2 (by simp)
      have hlast' : ((t2 :: r2).filterMap headerFields).getLast? = some f := by
        rw [List.filterMap_cons_some hg, List.filterMap_cons_some hg2] at hlast
        rw [List.filterMap_cons_some hg2]
        rwa [List.getLast?_cons_cons] at hlast
      have hall' : ∀ t' ∈ t2 :: r2, ∃ g', headerFields t' = some g' ∧
          auevent_type_in_typelist g'.1 aues = true := by
        intro t' ht'
        exact hall t' (by simp [ht'])
      rw [ih _ tc pc f hall' hlast']

/-- Concrete instantiation of the external renderers, for evaluating
the printer on concrete events. -/
def cEnv : PrintEnv where
  ttydevname := fun d => "ttys" ++ toString d
  ipaddrtoa := fun a dfl => if a.family = 0 then dfl else "ip" ++ toString a.ev_addr
  aename := fun ty => "EV" ++ toString ty
  timespec := fun s ns => toString s ++ "." ++ toString ns

/-- C1, counterexample: a record whose only token is a header of type 5,
filtered by the list [2,3], is skipped, but the resulting event is NOT
indistinguishable from a freshly created one: the header's type was
assigned before the filter check and remains visible. -/
theorem C1_counterexample :
    (auevent_fread true 0 (some [2, 3]) ⟨false, false⟩ auevent_create
       (.record [.tok (.header32 5 7 9 11)])).1 = .skipped
    ∧ (auevent_fread true 0 (some [2, 3]) ⟨false, false⟩ auevent_create
       (.record [.tok (.header32 5 7 9 11)])).2.type = 5
    ∧ (auevent_fread true 0 (some [2, 3]) ⟨false, false⟩ auevent_create
       (.record [.tok (.header32 5 7 9 11)])).2 ≠ auevent_create :=
  ⟨rfl, rfl, by decide⟩

/-- C1, amended: for a record beginning with a header token whose type is
absent from the supplied filter list, auevent_fread returns skipped (0)
and the event equals the freshly created event except for the type
field, which was assigned before the filter check; modifier and
timestamp do not leak. -/
theorem C1_filtered_header_leaks_only_type (prod : Bool) (devnull : Int)
    (fl : CaptureFlags) (l : List Nat) (t : Token) (ty : Nat) (rest : List Item)
    (hty : headerType t = some ty)
    (hfilt : auevent_type_in_typelist ty (some l) = false) :
    auevent_fread prod devnull (some l) fl auevent_create (.record (.tok t :: rest))
      = (.skipped, { auevent_create with type := ty }) := by
  cases t <;> simp only [headerType] at hty <;> (try cases hty) <;>
    simp_all [auevent_fread, runTokens, processToken]

/-- C1, witness for the amended theorem at a concrete record. -/
theorem C1_witness :
    headerType (.header32 5 7 9 11) = some 5
    ∧ auevent_type_in_typelist 5 (some [2, 3]) = false
    ∧ auevent_fread false 0 (some [2, 3]) ⟨false, false⟩ auevent_create
        (.record [.tok (.header32 5 7 9 11)])
      = (.skipped, { auevent_create with type := 5 }) :=
  ⟨rfl, by decide,
   C1_filtered_header_leaks_only_type false 0 ⟨false, false⟩ [2, 3]
     (.header32 5 7 9 11) 5 [] rfl (by decide)⟩

/-- C2, counterexample: in the production build (assert compiled out), a
record with two subject tokens is returned as produced (1) and the
second subject has silently overwritten the first; the record is not
discarded. -/
theorem C2_counterexample :
    (auevent_fread true 0 none ⟨false, false⟩ auevent_create
       (.record [.tok (.subject32 ⟨1, 2, 3, 4, 5, 6, 7⟩ ⟨9, 0⟩),
                 .tok (.subject32 ⟨21, 22, 23, 24, 25, 26, 27⟩ ⟨9, 0⟩)])).1 = .produced
    ∧ (auevent_fread true 0 none ⟨false, false⟩ auevent_create
       (.record [.tok (.subject32 ⟨1, 2, 3, 4, 5, 6, 7⟩ ⟨9, 0⟩),
                 .tok (.subject32 ⟨21, 22, 23, 24, 25, 26, 27⟩ ⟨9, 0⟩)])).2.subject.auid = 21 :=
  ⟨rfl, rfl⟩

/-- C2, amended: a second subject token fails the assert loudly in
non-production builds; in the production build it silently overwrites
the already-populated subject and the record is still produced. -/
theorem C2_second_subject (devnull : Int) (aues : Option (List Nat))
    (fl : CaptureFlags) :
    (∀ (ev : AuditEvent) (textc pathc : Nat) (d : SubjData)
       (tid : SubjTid) (tidx : SubjTidEx), ev.subject_present = true →
       processToken false devnull aues fl ev textc pathc (.subject32 d tid) = .aFail ev
       ∧ processToken false devnull aues fl ev textc pathc (.subject32_ex d tidx) = .aFail ev
       ∧ processToken false devnull aues fl ev textc pathc (.subject64 d tid) = .aFail ev
       ∧ processToken false devnull aues fl ev textc pathc (.subject64_ex d tidx) = .aFail ev)
    ∧ (∀ (d1 d2 : SubjData) (t1 t2 : SubjTid),
       auevent_fread true devnull aues fl auevent_create
           (.record [.tok (.subject32 d1 t1), .tok (.subject32 d2 t2)])
         = (.produced,
            { auevent_create with
              subject_present := true
              subject := applySubj devnull (applySubj devnull ident0 d1 t1) d2 t2 })
       ∧ (auevent_fread true devnull aues fl auevent_create
           (.record [.tok (.subject32 d1 t1), .tok (.subject32 d2 t2)])).2.subject.auid
         = d2.auid) := by
  constructor
  · intro ev textc pathc d tid tidx h
    refine ⟨?_, ?_, ?_, ?_⟩ <;> simp [processToken, h]
  · intro d1 d2 t1 t2
    exact ⟨rfl, rfl⟩

/-- Event with the subject already populated, for the C2 witness. -/
def evSubjSet : AuditEvent := { auevent_create with subject_present := true }

/-- C2, witness for the amended theorem at concrete inputs. -/
theorem C2_witness :
    evSubjSet.subject_present = true
    ∧ processToken false 0 none ⟨false, false⟩ evSubjSet 0 0
        (.subject32 ⟨1, 2, 3, 4, 5, 6, 7⟩ ⟨9, 0⟩) = .aFail evSubjSet
    ∧ (auevent_fread true 0 none ⟨false, false⟩ auevent_create
        (.record [.tok (.subject32 ⟨1, 2, 3, 4, 5, 6, 7⟩ ⟨9, 0⟩),
                  .tok (.subject32 ⟨21, 22, 23, 24, 25, 26, 27⟩ ⟨9, 0⟩)])).2.subject.auid = 21 :=
  ⟨rfl,
   ((C2_second_subject 0 none ⟨false, false⟩).1 evSubjSet 0 0
      ⟨1, 2, 3, 4, 5, 6, 7⟩ ⟨9, 0⟩ ⟨0, 0, 0, 0, 0, 0⟩ rfl).1,
   ((C2_second_subject 0 none ⟨false, false⟩).2 ⟨1, 2, 3, 4, 5, 6, 7⟩
      ⟨21, 22, 23, 24, 25, 26, 27⟩ ⟨9, 0⟩ ⟨9, 0⟩).2⟩

/-- C3, counterexample: an exec-argv allocation failure followed by five
text tokens makes the record hit the text capacity and be skipped:
auevent_fread returns 0, not the claimed -1, although the sticky
allocation-failed flag is set. -/
theorem C3_counterexample :
    (auevent_fread true 0 none ⟨false, false⟩ auevent_create
       (.record (.tok (.exec_args ["x"] false)
                 :: List.replicate 5 (.tok (.text "t"))))).1 = .skipped
    ∧ (auevent_fread true 0 none ⟨false, false⟩ auevent_create
       (.record (.tok (.exec_args ["x"] false)
                 :: List.replicate 5 (.tok (.text "t"))))).2.flags_enomem = true :=
  ⟨rfl, rfl⟩

/-- C3, amended: a failing allocation for an exec argv vector, or for an
exec envp vector when envp capture is enabled, sets AEFLAG_ENOMEM
whenever the token's interpretation does not abort on a failed assert;
the flag is sticky over the rest of any record; and a record containing
such a failure at any position, under any filter, in any build, is
never returned as produced (1): whenever auevent_fread neither skips
the record (0) nor aborts, it returns the resource-exhaustion error -1,
while a skip-triggering token (capacity overflow, filtered header,
decode error) before or after the failure still returns 0, masking the
error. -/
theorem C3_alloc_failure_error_unless_skipped :
    (∀ (prod : Bool) (devnull : Int) (aues : Option (List Nat))
       (fl : CaptureFlags) (ev : AuditEvent) (textc pathc : Nat) (tf : Token),
       AllocFails fl tf →
       (processToken prod devnull aues fl ev textc pathc tf).isFail = false →
       ((processToken prod devnull aues fl ev textc pathc tf).ev).flags_enomem = true)
    ∧ (∀ (prod : Bool) (devnull : Int) (aues : Option (List Nat))
         (fl : CaptureFlags) (items : List Item) (ev : AuditEvent)
         (textc pathc : Nat), ev.flags_enomem = true →
         (runTokens prod devnull aues fl ev textc pathc items).2.flags_enomem = true)
    ∧ (∀ (prod : Bool) (devnull : Int) (aues : Option (List Nat))
         (fl : CaptureFlags) (pre rest : List Item) (tf : Token),
         AllocFails fl tf →
         (auevent_fread prod devnull aues fl auevent_create
            (.record (pre ++ .tok tf :: rest))).1 ≠ .produced
         ∧ ((auevent_fread prod devnull aues fl auevent_create
              (.record (pre ++ .tok tf :: rest))).1 ≠ .skipped →
            (auevent_fread prod devnull aues fl auevent_create
              (.record (pre ++ .tok tf :: rest))).1 ≠ .assertFail →
            (auevent_fread prod devnull aues fl auevent_create
              (.record (pre ++ .tok tf :: rest))).1 = .err)) := by
  refine ⟨?_, ?_, ?_⟩
  · exact fun prod devnull aues fl ev tc pc tf htf hnf =>
      processToken_allocFail_sets_enomem prod devnull aues fl ev tc pc tf htf hnf
  · exact fun prod devnull aues fl items ev tc pc h =>
      (runTokens_enomem prod devnull aues fl items ev tc pc h).1
  · intro prod devnull aues fl pre rest tf htf
    have hnp := runTokens_allocFail_not_produced prod devnull aues fl tf rest htf
      pre auevent_create 0 0
    refine ⟨hnp, ?_⟩
    intro hs ha
    cases hout : (auevent_fread prod devnull aues fl auevent_create
        (.record (pre ++ .tok tf :: rest))).1 with
    | produced => exact absurd hout hnp
    | skipped => exact absurd hout hs
    | err => rfl
    | assertFail => exact absurd hout ha

/-- C3, witness for the amended theorem: a failing envp allocation with
DYLD-only capture enabled, placed after a filter-passing header; the
flag is set at the step, the record is not produced, and since nothing
skips the return value is the error -1. -/
theorem C3_witness :
    AllocFails ⟨true, false⟩ (Token.exec_env ["A"] false)
    ∧ ((processToken true 0 (some [1]) ⟨true, false⟩ auevent_create 0 0
          (Token.exec_env ["A"] false)).ev).flags_enomem = true
    ∧ (auevent_fread true 0 (some [1]) ⟨true, false⟩ auevent_create
         (.record ([Item.tok (Token.header32 1 0 0 0)]
                   ++ Item.tok (Token.exec_env ["A"] false) :: []))).1 ≠ Outcome.produced
    ∧ (auevent_fread true 0 (some [1]) ⟨true, false⟩ auevent_create
         (.record ([Item.tok (Token.header32 1 0 0 0)]
                   ++ Item.tok (Token.exec_env ["A"] false) :: []))).1 = Outcome.err :=
  ⟨⟨rfl, rfl⟩,
   C3_alloc_failure_error_unless_skipped.1 true 0 (some [1]) ⟨true, false⟩
     auevent_create 0 0 (Token.exec_env ["A"] false) ⟨rfl, rfl⟩ rfl,
   (C3_alloc_failure_error_unless_skipped.2.2 true 0 (some [1]) ⟨true, false⟩
     [Item.tok (Token.header32 1 0 0 0)] [] (Token.exec_env ["A"] false) ⟨rfl, rfl⟩).1,
   (C3_alloc_failure_error_unless_skipped.2.2 true 0 (some [1]) ⟨true, false⟩
     [Item.tok (Token.header32 1 0 0 0)] [] (Token.exec_env ["A"] false) ⟨rfl, rfl⟩).2
     (by decide) (by decide)⟩

/-- C4: auevent_fread populates the socket-peer address and port of a
matching inet socket token, but never sets sockinet_present, which is
the flag auevent_fprint gates the sockinet field on; the rendered line
of the populated event is therefore identical to that of a freshly
created event, so the populated socket peer is never rendered. -/
theorem C4_sockinet_present_never_set :
    (auevent_fread true 0 none ⟨false, false⟩ auevent_create
       (.record [.tok (.sockinet32 BSM_PF_INET 77 258)])).1 = .produced
    ∧ (auevent_fread true 0 none ⟨false, false⟩ auevent_create
       (.record [.tok (.sockinet32 BSM_PF_INET 77 258)])).2.sockinet_addr.family = AF_INET
    ∧ (auevent_fread true 0 none ⟨false, false⟩ auevent_create
       (.record [.tok (.sockinet32 BSM_PF_INET 77 258)])).2.sockinet_port = 513
    ∧ (auevent_fread true 0 none ⟨false, false⟩ auevent_create
       (.record [.tok (.sockinet32 BSM_PF_INET 77 258)])).2.sockinet_present = false
    ∧ auevent_fprint cEnv (auevent_fread true 0 none ⟨false, false⟩ auevent_create
       (.record [.tok (.sockinet32 BSM_PF_INET 77 258)])).2
      = auevent_fprint cEnv auevent_create :=
  ⟨rfl, rfl, rfl, rfl, rfl⟩

/-- C5: the 128-bit (IPv6) socket token stores its port verbatim, the
32-bit (IPv4) socket token stores its port byte-swapped by ntohs. -/
theorem C5_port_byte_order (prod : Bool) (devnull : Int) (fl : CaptureFlags) :
    (∀ (a0v a1v a2v a3v port : Nat),
       (auevent_fread prod devnull none fl auevent_create
          (.record [.tok (.sockinet128 BSM_PF_INET6 a0v a1v a2v a3v port)])).2.sockinet_port
         = port)
    ∧ (∀ (a0v port : Nat),
       (auevent_fread prod devnull none fl auevent_create
          (.record [.tok (.sockinet32 BSM_PF_INET a0v port)])).2.sockinet_port
         = ntohs port) := by
  constructor <;> intros <;>
    simp [auevent_fread, runTokens, processToken]

/-- C6: in the production build, a record with more text, path or
attribute tokens than the four slots of the corresponding array is
skipped (auevent_fread returns 0). -/
theorem C6_capacity_overflow_skips (devnull : Int) (aues : Option (List Nat))
    (fl : CaptureFlags) (items : List Item)
    (h : 4 < countText items ∨ 4 < countPath items ∨ 4 < countAttr items) :
    (auevent_fread true devnull aues fl auevent_create (.record items)).1 = .skipped := by
  have htl : auevent_create.text.length = 4 := by simp [auevent_create]
  have hpl : auevent_create.path.length = 4 := by simp [auevent_create]
  have hal : auevent_create.attr.length = 4 := by simp [auevent_create]
  have hac : auevent_create.attr_count = 0 := rfl
  rcases h with h | h | h
  · exact runTokens_text_overflow devnull aues fl items auevent_create 0 0
      (by omega) (by omega)
  · exact runTokens_path_overflow devnull aues fl items auevent_create 0 0
      (by omega) (by omega)
  · exact runTokens_attr_overflow devnull aues fl items auevent_create 0 0
      (by omega) (by omega)

/-- C6, witness: five text tokens against four slots are skipped. -/
theorem C6_witness :
    (4 < countText (List.replicate 5 (Item.tok (Token.text "t")))
     ∨ 4 < countPath (List.replicate 5 (Item.tok (Token.text "t")))
     ∨ 4 < countAttr (List.replicate 5 (Item.tok (Token.text "t"))))
    ∧ (auevent_fread true 0 none ⟨false, false⟩ auevent_create
        (.record (List.replicate 5 (Item.tok (Token.text "t"))))).1 = .skipped :=
  ⟨Or.inl (by decide),
   C6_capacity_overflow_skips 0 none ⟨false, false⟩ _ (Or.inl (by decide))⟩

/-- C7, counterexample: in the production build a second argument token
with an already-populated index silently overwrites the slot and the
record is produced; the first value does not win. -/
theorem C7_counterexample :
    (auevent_fread true 0 none ⟨false, false⟩ auevent_create
       (.record [.tok (.arg32 0 1), .tok (.arg32 0 2)])).1 = .produced
    ∧ (auevent_fread true 0 none ⟨false, false⟩ auevent_create
       (.record [.tok (.arg32 0 1), .tok (.arg32 0 2)])).2.args.getD 0 arg0
      = ⟨true, 2⟩ :=
  ⟨rfl, rfl⟩

/-- C7, amended: args_count always equals one plus the highest populated
argument index of the final event; a duplicate index fails the assert
loudly in non-production builds, while in the production build the
second token silently overwrites the slot (the second value wins). -/
theorem C7_args_count_and_duplicates :
    (∀ (prod : Bool) (devnull : Int) (aues : Option (List Nat))
       (fl : CaptureFlags) (input : ReadResult),
       (auevent_fread prod devnull aues fl auevent_create input).2.args_count
         = argsSup (auevent_fread prod devnull aues fl auevent_create input).2.args)
    ∧ (∀ (devnull : Int) (aues : Option (List Nat)) (fl : CaptureFlags)
         (ev : AuditEvent) (textc pathc : Nat) (no : Fin 256) (v : Nat),
         (ev.args.getD no.val arg0).present = true →
         processToken false devnull aues fl ev textc pathc (.arg32 no v) = .aFail ev
         ∧ processToken false devnull aues fl ev textc pathc (.arg64 no v) = .aFail ev)
    ∧ (∀ (devnull : Int) (aues : Option (List Nat)) (fl : CaptureFlags)
         (ev : AuditEvent) (textc pathc : Nat) (no : Fin 256) (v : Nat),
         no.val < ev.args.length →
         ((processToken true devnull aues fl ev textc pathc (.arg32 no v)).ev).args.getD
             no.val arg0
           = ⟨true, v⟩) := by
  refine ⟨?_, ?_, ?_⟩
  · intro prod devnull aues fl input
    cases input with
    | readErr => exact argsInv_create.2
    | empty => exact argsInv_create.2
    | record items =>
      exact (runTokens_argsInv prod devnull aues fl items auevent_create 0 0 argsInv_create).2
  · intro devnull aues fl ev textc pathc no v h
    simp only [List.getD, List.get?_eq_getElem?] at h
    constructor <;> simp [processToken, h]
  · intro devnull aues fl ev textc pathc no v h
    have hstep : (processToken true devnull aues fl ev textc pathc (.arg32 no v)).ev
        = { ev with
            args := ev.args.set no.val ⟨true, v⟩
            args_count := Nat.max ev.args_count (no.val + 1) } := by
      simp [processToken, Step.ev]
    rw [hstep]
    exact argsGetD_set_self ev.args no.val h ⟨true, v⟩

/-- Event with argument slot 0 already populated, for the C7 witness. -/
def evArg0Set : AuditEvent :=
  { auevent_create with args := auevent_create.args.set 0 ⟨true, 1⟩ }

/-- C7, witness for the amended theorem at concrete inputs. -/
theorem C7_witness :
    (evArg0Set.args.getD 0 arg0).present = true
    ∧ (auevent_fread true 0 none ⟨false, false⟩ auevent_create
        (.record [.tok (.arg32 3 9)])).2.args_count
      = argsSup (auevent_fread true 0 none ⟨false, false⟩ auevent_create
        (.record [.tok (.arg32 3 9)])).2.args
    ∧ processToken false 0 none ⟨false, false⟩ evArg0Set 0 0 (.arg32 0 7) = .aFail evArg0Set
    ∧ ((processToken true 0 none ⟨false, false⟩ evArg0Set 0 0 (.arg32 0 7)).ev).args.getD 0 arg0
      = ⟨true, 7⟩ :=
  ⟨by decide,
   C7_args_count_and_duplicates.1 true 0 none ⟨false, false⟩ _,
   (C7_args_count_and_duplicates.2.1 0 none ⟨false, false⟩ evArg0Set 0 0 0 7 (by decide)).1,
   C7_args_count_and_duplicates.2.2 0 none ⟨false, false⟩ evArg0Set 0 0 0 7 (by decide)⟩

/-- C8: with the subject's terminal at the null-device sentinel and the
process's terminal a real device (id 5), the rendered process block
shows a dash (device absent) in its process_tid field because the
source tests ev->subject.dev against -1 instead of ev->process.dev;
the process identity says the device is present (id 5, which would
render as ttys5). -/
theorem C8_process_tid_from_subject_dev :
    (auevent_fread true 3 none ⟨false, false⟩ auevent_create
       (.record [.tok (.subject32 ⟨1, 2, 3, 4, 5, 6, 7⟩ ⟨3, 0⟩),
                 .tok (.process32 ⟨11, 12, 13, 14, 15, 16, 17⟩ ⟨5, 0⟩)])).2.process.dev = 5
    ∧ (auevent_fread true 3 none ⟨false, false⟩ auevent_create
       (.record [.tok (.subject32 ⟨1, 2, 3, 4, 5, 6, 7⟩ ⟨3, 0⟩),
                 .tok (.process32 ⟨11, 12, 13, 14, 15, 16, 17⟩ ⟨5, 0⟩)])).2.subject.dev = -1
    ∧ cEnv.ttydevname 5 = "ttys5"
    ∧ auevent_fprint cEnv (auevent_fread true 3 none ⟨false, false⟩ auevent_create
       (.record [.tok (.subject32 ⟨1, 2, 3, 4, 5, 6, 7⟩ ⟨3, 0⟩),
                 .tok (.process32 ⟨11, 12, 13, 14, 15, 16, 17⟩ ⟨5, 0⟩)])).2
      = ["0.0", " EV0 [0:0]",
         " subject_pid=6 subject_sid=7 subject_tid=/dev/-[-] subject_auid=1 subject_euid=2 subject_egid=3 subject_ruid=4 subject_rgid=5",
         " process_pid=16 process_sid=17 process_tid=/dev/-[-] process_auid=11 process_euid=12 process_egid=13 process_ruid=14 process_rgid=15",
         "\n"] :=
  ⟨rfl, rfl, rfl, rfl⟩

/-- C9: an unhandled token always continues (never a skip, an error or
an abort), touching only unk_tokids; on a well-formed 256-entry array
(recorded prefix followed by free zero entries), a non-zero id is
appended after the recorded prefix if absent and a free entry remains,
and the array is unchanged if the id is already recorded or no free
entry remains. -/
theorem C9_unknown_token_bookkeeping :
    (∀ (prod : Bool) (devnull : Int) (aues : Option (List Nat)) (fl : CaptureFlags)
       (ev : AuditEvent) (textc pathc : Nat) (id : Nat),
       processToken prod devnull aues fl ev textc pathc (.unknown id)
         = .cont { ev with unk_tokids := unkInsert ev.unk_tokids id } textc pathc)
    ∧ (∀ (p : List Nat) (k : Nat) (id : Nat), 0 ∉ p → id ≠ 0 →
       unkInsert (p ++ List.replicate k 0) id =
         if id ∈ p then p ++ List.replicate k 0
         else if k = 0 then p ++ List.replicate k 0
         else p ++ id :: List.replicate (k - 1) 0) := by
  constructor
  · intro prod devnull aues fl ev textc pathc id
    rfl
  · intro p k id
    induction p with
    | nil =>
      intro h0 hid
      cases k with
      | zero => simp [unkInsert]
      | succ k' =>
        simp [unkInsert, List.replicate, Ne.symm hid]
    | cons x p' ih =>
      intro h0 hid
      have hx0 : x ≠ 0 := fun hh => h0 (by simp [hh])
      have hp0 : (0 : Nat) ∉ p' := fun hm => h0 (List.mem_cons_of_mem x hm)
      by_cases hx : x = id
      · subst hx
        simp [unkInsert, List.mem_cons]
      · rw [List.cons_append]
        simp only [unkInsert]
        rw [if_neg hx, if_neg hx0]
        rw [ih hp0 hid]
        have hxid : id ≠ x := fun hh => hx hh.symm
        by_cases hm : id ∈ p' <;> by_cases hk : k = 0 <;>
          simp [hm, hk, List.mem_cons, hxid]

/-- C9, witness at concrete inputs. -/
theorem C9_witness :
    processToken true 0 none ⟨false, false⟩ auevent_create 0 0 (.unknown 99)
      = .cont { auevent_create with unk_tokids := unkInsert auevent_create.unk_tokids 99 } 0 0
    ∧ ((0 : Nat) ∉ [7] ∧ (9 : Nat) ≠ 0)
    ∧ unkInsert ([7] ++ List.replicate 2 0) 9
      = (if (9 : Nat) ∈ [7] then [7] ++ List.replicate 2 0
         else if (2 : Nat) = 0 then [7] ++ List.replicate 2 0
         else [7] ++ 9 :: List.replicate 1 0) :=
  ⟨C9_unknown_token_bookkeeping.1 true 0 none ⟨false, false⟩ auevent_create 0 0 99,
   ⟨by decide, by decide⟩,
   C9_unknown_token_bookkeeping.2 [7] 2 9 (by decide) (by decide)⟩

/-- C10: a record made of header tokens that all pass the filter is not
rejected; auevent_fread returns produced and the event carries the type,
modifier and timestamp of the last header, later headers overwriting
earlier ones. -/
theorem C10_last_header_wins (prod : Bool) (devnull : Int)
    (aues : Option (List Nat)) (fl : CaptureFlags) (hs : List Token)
    (f : Nat × Nat × Nat × Nat)
    (hall : ∀ t ∈ hs, ∃ g, headerFields t = some g ∧
       auevent_type_in_typelist g.1 aues = true)
    (hlast : (hs.filterMap headerFields).getLast? = some f) :
    auevent_fread prod devnull aues fl auevent_create (.record (hs.map Item.tok))
      = (.produced,
         { auevent_create with
           type := f.1
           mod := f.2.1
           tv_sec := f.2.2.1
           tv_nsec := f.2.2.2 }) := by
  have hrun := runTokens_headers prod devnull aues fl hs auevent_create 0 0 f hall hlast
  simpa [auevent_fread, auevent_create] using hrun

/-- C10, witness: two headers, both passing the filter list [1,2]; the
second header's fields win. -/
theorem C10_witness :
    auevent_fread true 0 (some [1, 2]) ⟨false, false⟩ auevent_create
        (.record ([Token.header32 1 0 3 4, Token.header64 2 9 8 7].map Item.tok))
      = (.produced,
         { auevent_create with
           type := 2
           mod := 9
           tv_sec := 8
           tv_nsec := 7 }) :=
  C10_last_header_wins true 0 (some [1, 2]) ⟨false, false⟩
    [Token.header32 1 0 3 4, Token.header64 2 9 8 7] (2, 9, 8, 7)
    (by
      intro t ht
      rcases List.mem_cons.mp ht with h | h
      · exact ⟨(1, 0, 3, 4000000), by subst h; rfl, by decide⟩
      · rcases List.mem_cons.mp h with h2 | h2
        · exact ⟨(2, 9, 8, 7), by subst h2; rfl, by decide⟩
        · simp at h2)
    (by decide)
